import Mathlib

/-!
Shallow embedding of the risk validation engine of the teletrade repository:
src/src/risk/risk_manager.py (class RiskManager), the decision rule of
src/src/main.py (process_message) and the defaults of src/config/settings.py.

Monetary amounts and ratios are rationals.  Python dictionary reads with a
default, d.get(k, v), are modelled as Option fields read with getD.
-/

/-- SeverityLevel enum from src/src/database/models.py. -/
inductive SeverityLevel where
  | LOW
  | MEDIUM
  | HIGH
  | CRITICAL
deriving DecidableEq, Repr

/-- The string stored in each enum member, read as severity.value in main.py. -/
def SeverityLevel.value : SeverityLevel → String
  | .LOW => "LOW"
  | .MEDIUM => "MEDIUM"
  | .HIGH => "HIGH"
  | .CRITICAL => "CRITICAL"

/-- RiskEventType enum from src/src/risk/risk_manager.py. -/
inductive RiskEventType where
  | POSITION_SIZE_LIMIT
  | DAILY_LOSS_LIMIT
  | DRAWDOWN_LIMIT
  | MARGIN_REQUIREMENT
  | MARKET_HOURS
  | CIRCUIT_BREAKER
  | CORRELATION_RISK
  | PRICE_ANOMALY
  | SIGNAL_ANOMALY
  | ORDER_FAILURE
deriving DecidableEq, Repr

/-- RiskCheckResult dataclass from src/src/risk/risk_manager.py. -/
structure RiskCheckResult where
  passed : Bool
  risk_type : RiskEventType
  message : String
  severity : SeverityLevel
  action_required : Bool := false
deriving DecidableEq, Repr

/-- The trade signal dictionary consumed by RiskManager.  The producers of
these dicts (the parser's asdict-based to_dict, the agent integration, the
tests) always emit every numeric field, so an absent price or quantity
normally arrives as a key bound to None; a key can also be missing
entirely.  A numeric field is therefore Option (Option ℚ): the outer layer
is key presence, the inner layer is None versus a number.  instrument_type
is a required non-None string in every producer and is modelled by key
presence alone; a hypothetical None value would fall through every string
comparison of the margin calculation to its final default branch, which
returns the same full notional as the EQUITY branch. -/
structure Signal where
  symbol : String
  quantity : Option (Option ℚ) := none
  entry_price : Option (Option ℚ) := none
  instrument_type : Option String := none
deriving DecidableEq, Repr

/-- Python dict.get(key, default) on a numeric field: the default applies
only when the key is missing; a key bound to None yields None. -/
def pyGet (field : Option (Option ℚ)) (default : ℚ) : Option ℚ :=
  field.getD (some default)

/-- Python multiplication of two number-or-None values: TypeError unless
both are numbers. -/
def pyMul : Option ℚ → Option ℚ → Except String ℚ
  | some a, some b => .ok (a * b)
  | _, _ => .error "TypeError: unsupported operand type for *"

/-- One entry of portfolio["positions"]; the code reads pos.get("symbol", "")
and pos.get("value", 0). -/
structure Position where
  symbol : Option String := none
  value : Option ℚ := none
deriving DecidableEq, Repr

/-- The portfolio dictionary passed to validate_trade (built in
main.get_current_portfolio). -/
structure Portfolio where
  total_value : Option ℚ := none
  available_margin : Option ℚ := none
  positions : Option (List Position) := none
deriving DecidableEq, Repr

/-- A row of the trades table (src/src/database/models.py, class Trade)
restricted to the columns the daily-loss query touches: the calendar day of
created_at, the calendar day of exit_time, and the nullable net_pnl. -/
structure Trade where
  created_day : ℤ
  exit_day : Option ℤ := none
  net_pnl : Option ℚ := none
deriving DecidableEq, Repr

/-- Mutable fields of RiskManager together with the risk limits it copies
from settings in __init__. -/
structure RiskManagerState where
  emergency_stop_active : Bool
  daily_pnl : ℚ
  max_drawdown_current : ℚ
  portfolio_peak : ℚ
  max_position_size : ℚ
  max_daily_loss : ℚ
  max_drawdown : ℚ
deriving DecidableEq, Repr

/-- RiskManager.__init__ with the defaults of config/settings.py
(max_position_size 100000.0, max_daily_loss 5000.0, max_drawdown 0.15). -/
def RiskManager.init : RiskManagerState :=
  { emergency_stop_active := false
    daily_pnl := 0
    max_drawdown_current := 0
    portfolio_peak := 0
    max_position_size := 100000
    max_daily_loss := 5000
    max_drawdown := 15/100 }

/-- RiskManager.emergency_stop: sets the flag (the persisted RiskEvent is
external I/O). -/
def RiskManager.emergency_stop (st : RiskManagerState) : RiskManagerState :=
  { st with emergency_stop_active := true }

/-- RiskManager.reset_emergency_stop. -/
def RiskManager.reset_emergency_stop (st : RiskManagerState) : RiskManagerState :=
  { st with emergency_stop_active := false }

/-- RiskManager.is_emergency_stop_active. -/
def RiskManager.is_emergency_stop_active (st : RiskManagerState) : Bool :=
  st.emergency_stop_active

/-- The except handler each individual risk check wraps its body in
(for example lines 177 to 184 of risk_manager.py): an error raised in the
body becomes a failing result of severity MEDIUM carrying the check's own
risk type, instead of propagating. -/
def run_check_with_handler (rt : RiskEventType) (msgHead : String)
    (body : Except String RiskCheckResult) : RiskCheckResult :=
  match body with
  | .ok r => r
  | .error e =>
    { passed := false
      risk_type := rt
      message := msgHead ++ e
      severity := .MEDIUM }

/-- The per-outcome conversion of validate_trade's gather loop (lines 90 to
101 of risk_manager.py): an exception object that escaped a check becomes a
failing HIGH ORDER_FAILURE result; a RiskCheckResult is kept as is. -/
def gather_result (outcome : Except String RiskCheckResult) : RiskCheckResult :=
  match outcome with
  | .ok r => r
  | .error e =>
    { passed := false
      risk_type := .ORDER_FAILURE
      message := "Risk check error: " ++ e
      severity := .HIGH
      action_required := true }

/-- The collection phase of validate_trade over the gathered outcomes:
every outcome, exception or not, yields exactly one result. -/
def validate_collect (outcomes : List (Except String RiskCheckResult)) :
    List RiskCheckResult :=
  outcomes.map gather_result

/-- RiskManager.check_position_size: inside the try block, position_value =
signal.get("quantity", 0) * signal.get("entry_price", 0) — a multiplication
that raises TypeError when either value is None — then fail HIGH when the
value exceeds max_position_size, else pass LOW; the except block converts a
raised error into a failing MEDIUM result. -/
def check_position_size (st : RiskManagerState) (signal : Signal) : RiskCheckResult :=
  run_check_with_handler .POSITION_SIZE_LIMIT "Position size check error: "
    (match pyMul (pyGet signal.quantity 0) (pyGet signal.entry_price 0) with
     | .error e => .error e
     | .ok position_value =>
       if position_value > st.max_position_size then
         .ok { passed := false
               risk_type := .POSITION_SIZE_LIMIT
               message := "Position size exceeds limit"
               severity := .HIGH
               action_required := true }
       else
         .ok { passed := true
               risk_type := .POSITION_SIZE_LIMIT
               message := "Position size within limits"
               severity := .LOW })

/-- The SQL of RiskManager.check_daily_loss_limit: COALESCE(SUM(net_pnl), 0)
over trades with DATE(created_at) = today and net_pnl IS NOT NULL. -/
def daily_pnl_query (trades : List Trade) (today : ℤ) : ℚ :=
  (trades.filter (fun t => t.created_day == today && t.net_pnl.isSome)).foldl
    (fun acc t => acc + t.net_pnl.getD 0) 0

/-- RiskManager.check_daily_loss_limit: recompute daily_pnl from the trades
table, store it, fail CRITICAL when abs(daily_pnl) > max_daily_loss and
daily_pnl < 0, else pass LOW.  Returns the recomputed daily_pnl together
with the check result. -/
def check_daily_loss_limit (st : RiskManagerState) (trades : List Trade)
    (today : ℤ) : ℚ × RiskCheckResult :=
  let daily_pnl := daily_pnl_query trades today
  if |daily_pnl| > st.max_daily_loss ∧ daily_pnl < 0 then
    (daily_pnl,
      { passed := false
        risk_type := .DAILY_LOSS_LIMIT
        message := "Daily loss exceeds limit"
        severity := .CRITICAL
        action_required := true })
  else
    (daily_pnl,
      { passed := true
        risk_type := .DAILY_LOSS_LIMIT
        message := "Daily PnL within limits"
        severity := .LOW })

/-- The portfolio peak after the update step of check_drawdown_limit:
if current value > peak then peak := current value. -/
def peak_after (st : RiskManagerState) (portfolio : Portfolio) : ℚ :=
  let current := portfolio.total_value.getD 0
  if current > st.portfolio_peak then current else st.portfolio_peak

/-- The current_drawdown computed by check_drawdown_limit after the peak
update: (peak - value) / peak when peak > 0, else 0. -/
def drawdown_of (st : RiskManagerState) (portfolio : Portfolio) : ℚ :=
  let current := portfolio.total_value.getD 0
  let peak := peak_after st portfolio
  if peak > 0 then (peak - current) / peak else 0

/-- RiskManager.check_drawdown_limit: update portfolio_peak, compute the
drawdown (writing max_drawdown_current when peak > 0), fail CRITICAL when
drawdown > max_drawdown, else pass LOW. -/
def check_drawdown_limit (st : RiskManagerState) (portfolio : Portfolio) :
    RiskManagerState × RiskCheckResult :=
  let peak := peak_after st portfolio
  let dd := drawdown_of st portfolio
  let st1 :=
    if peak > 0 then
      { st with portfolio_peak := peak, max_drawdown_current := dd }
    else
      { st with portfolio_peak := peak }
  if dd > st.max_drawdown then
    (st1,
      { passed := false
        risk_type := .DRAWDOWN_LIMIT
        message := "Drawdown exceeds limit"
        severity := .CRITICAL
        action_required := true })
  else
    (st1,
      { passed := true
        risk_type := .DRAWDOWN_LIMIT
        message := "Drawdown within limits"
        severity := .LOW })

/-- RiskManager._calculate_required_margin: full notional for EQUITY and
OPTIONS (and any other instrument type), 15 percent of notional for FUTURES;
instrument_type defaults to EQUITY when absent.  The multiplication raises
TypeError when quantity or entry_price is None. -/
def calculate_required_margin (signal : Signal) : Except String ℚ :=
  let quantity := pyGet signal.quantity 0
  let price := pyGet signal.entry_price 0
  let instrument_type := signal.instrument_type.getD "EQUITY"
  if instrument_type == "EQUITY" then pyMul quantity price
  else if instrument_type == "FUTURES" then
    match pyMul quantity price with
    | .ok notional => .ok (notional * (15/100))
    | .error e => .error e
  else if instrument_type == "OPTIONS" then pyMul quantity price
  else pyMul quantity price

/-- RiskManager.check_margin_requirements: inside the try block, fail HIGH
when the required margin exceeds portfolio.get("available_margin", 0), else
pass LOW; the except block converts a raised error (such as the TypeError
the margin calculation raises at a None price) into a failing MEDIUM
result. -/
def check_margin_requirements (signal : Signal) (portfolio : Portfolio) :
    RiskCheckResult :=
  run_check_with_handler .MARGIN_REQUIREMENT "Margin check error: "
    (match calculate_required_margin signal with
     | .error e => .error e
     | .ok required_margin =>
       if required_margin > portfolio.available_margin.getD 0 then
         .ok { passed := false
               risk_type := .MARGIN_REQUIREMENT
               message := "Required margin exceeds available"
               severity := .HIGH
               action_required := true }
       else
         .ok { passed := true
               risk_type := .MARGIN_REQUIREMENT
               message := "Sufficient margin available"
               severity := .LOW })

/-- Python tuple comparison (h1, m1) <= (h2, m2), as used on market hours. -/
def timeTupleLE (a b : ℕ × ℕ) : Bool :=
  a.1 < b.1 || (a.1 == b.1 && a.2 ≤ b.2)

/-- RiskManager.check_market_hours: fail MEDIUM on weekends
(weekday >= 5) or outside (9, 15) <= (hour, minute) <= (15, 30). -/
def check_market_hours (weekday hour minute : ℕ) : RiskCheckResult :=
  if weekday ≥ 5 then
    { passed := false
      risk_type := .MARKET_HOURS
      message := "Market closed - Weekend"
      severity := .MEDIUM }
  else if !(timeTupleLE (9, 15) (hour, minute) && timeTupleLE (hour, minute) (15, 30)) then
    { passed := false
      risk_type := .MARKET_HOURS
      message := "Market closed"
      severity := .MEDIUM }
  else
    { passed := true
      risk_type := .MARKET_HOURS
      message := "Market is open"
      severity := .LOW }

/-- RiskManager.check_circuit_breakers: a stub that always passes. -/
def check_circuit_breakers (_symbol : String) : RiskCheckResult :=
  { passed := true
    risk_type := .CIRCUIT_BREAKER
    message := "No circuit breaker hit"
    severity := .LOW }

/-- Python str.upper() on a symbol: uppercase every character. -/
def pyUpper (s : String) : String :=
  String.mk (s.data.map Char.toUpper)

/-- RiskManager._get_sector: fixed symbol-to-sector table, default Others. -/
def get_sector (symbol : String) : String :=
  let s := pyUpper symbol
  if s == "RELIANCE" then "Energy"
  else if s == "TCS" then "IT"
  else if s == "HDFCBANK" then "Banking"
  else if s == "INFY" then "IT"
  else if s == "HDFC" then "Financial Services"
  else if s == "ICICIBANK" then "Banking"
  else if s == "KOTAKBANK" then "Banking"
  else if s == "SBIN" then "Banking"
  else if s == "BHARTIARTL" then "Telecom"
  else if s == "ITC" then "FMCG"
  else "Others"

/-- The sector_exposure sum of check_correlation_risk: total value of the
existing positions whose symbol maps to the given sector. -/
def sector_exposure (positions : List Position) (sector : String) : ℚ :=
  (positions.filter (fun pos => get_sector (pos.symbol.getD "") == sector)).foldl
    (fun acc pos => acc + pos.value.getD 0) 0

/-- The sector_concentration of check_correlation_risk: existing exposure to
the signal's sector divided by portfolio.get("total_value", 1), taken as 0
unless that total is positive.  The proposed trade's own notional is not
added. -/
def sector_concentration (signal : Signal) (portfolio : Portfolio) : ℚ :=
  let sector := get_sector signal.symbol
  let exposure := sector_exposure (portfolio.positions.getD []) sector
  let total := portfolio.total_value.getD 1
  if total > 0 then exposure / total else 0

/-- RiskManager.check_correlation_risk: fail MEDIUM when the sector
concentration exceeds 0.3, else pass LOW. -/
def check_correlation_risk (signal : Signal) (portfolio : Portfolio) :
    RiskCheckResult :=
  if sector_concentration signal portfolio > 3/10 then
    { passed := false
      risk_type := .CORRELATION_RISK
      message := "High sector concentration"
      severity := .MEDIUM
      action_required := true }
  else
    { passed := true
      risk_type := .CORRELATION_RISK
      message := "Portfolio correlation within limits"
      severity := .LOW }

/-- RiskManager.check_price_anomalies: entry_price = signal.get("entry_price", 0);
a falsy entry price (None or zero) passes with no data, and the remaining
body is a stub that also passes. -/
def check_price_anomalies (signal : Signal) : RiskCheckResult :=
  match pyGet signal.entry_price 0 with
  | none =>
    { passed := true
      risk_type := .PRICE_ANOMALY
      message := "No entry price to check"
      severity := .LOW }
  | some p =>
    if p == 0 then
      { passed := true
        risk_type := .PRICE_ANOMALY
        message := "No entry price to check"
        severity := .LOW }
    else
      { passed := true
        risk_type := .PRICE_ANOMALY
        message := "Price appears normal"
        severity := .LOW }

/-- The environment a validate_trade call reads besides its arguments: the
trades table and the wall clock. -/
structure Env where
  trades : List Trade
  today : ℤ
  weekday : ℕ
  hour : ℕ
  minute : ℕ
deriving Repr

/-- One argument of the asyncio.gather call in validate_trade: the first
five entries of the checks list (risk_manager.py lines 76 to 85) are
coroutine objects that were never awaited; the last three were awaited
during list construction and are plain RiskCheckResult dataclass values. -/
inductive CheckEntry where
  | coroutine (body : Unit → RiskCheckResult)
  | awaitedValue (result : RiskCheckResult)

/-- asyncio.gather(*args, return_exceptions=True): every argument is first
wrapped with ensure_future, which raises TypeError on a value that is
neither a future, a coroutine nor an awaitable; return_exceptions only
captures exceptions raised inside the scheduled awaitables, not this
argument-processing error. -/
def gather (args : List CheckEntry) :
    Except String (List (Except String RiskCheckResult)) :=
  if args.all (fun a => match a with
      | .coroutine _ => true
      | .awaitedValue _ => false) then
    .ok (args.map (fun a => match a with
      | .coroutine body => .ok (body ())
      | .awaitedValue r => .ok r))
  else
    .error "TypeError: An asyncio.Future, a coroutine or an awaitable is required"

/-- RiskManager.validate_trade: the checks list of lines 76 to 85 holds five
un-awaited coroutine objects followed by three already-awaited
RiskCheckResult values (circuit breakers, correlation and price anomalies
run while the list is built).  asyncio.gather rejects the three plain
dataclass values with TypeError, so every call raises before any coroutine
body runs, and the exception propagates out of validate_trade, which has no
surrounding try.  The collection loop of lines 90 to 101 (validate_collect)
is reachable only if gather returns.  The emergency_stop_active flag is
never consulted anywhere in the method. -/
def validate_trade (st : RiskManagerState) (signal : Signal)
    (portfolio : Portfolio) (env : Env) : Except String (List RiskCheckResult) :=
  let checks : List CheckEntry :=
    [ .coroutine (fun _ => check_position_size st signal),
      .coroutine (fun _ => (check_daily_loss_limit st env.trades env.today).2),
      .coroutine (fun _ => (check_drawdown_limit
          { st with daily_pnl := (check_daily_loss_limit st env.trades env.today).1 }
          portfolio).2),
      .coroutine (fun _ => check_margin_requirements signal portfolio),
      .coroutine (fun _ => check_market_hours env.weekday env.hour env.minute),
      .awaitedValue (check_circuit_breakers signal.symbol),
      .awaitedValue (check_correlation_risk signal portfolio),
      .awaitedValue (check_price_anomalies signal) ]
  match gather checks with
  | .error e => .error e
  | .ok outcomes => .ok (validate_collect outcomes)

/-- The critical_risks filter of main.process_message: results whose
severity value string is HIGH or CRITICAL and which did not pass. -/
def critical_risks (results : List RiskCheckResult) : List RiskCheckResult :=
  results.filter (fun r =>
    (["HIGH", "CRITICAL"].contains r.severity.value) && !r.passed)

/-- The derived decision of main.process_message: the trade is approved
(submitted for execution) exactly when critical_risks is empty. -/
def approved (results : List RiskCheckResult) : Bool :=
  (critical_risks results).isEmpty

/-- The daily pnl the claim's words describe: the sum of net_pnl over the
trades closed (exit_time) on the current calendar day.  Written from the
spec sentence for comparison with daily_pnl_query; the code instead filters
on the day of created_at. -/
def daily_pnl_closed_today (trades : List Trade) (today : ℤ) : ℚ :=
  (trades.filter (fun t => t.exit_day == some today)).foldl
    (fun acc t => acc + t.net_pnl.getD 0) 0

/-- The sector concentration the claim's words describe: existing sector
exposure plus the proposed trade's notional, divided by total_value, taken
as 0 when total_value is 0.  Written from the spec sentence for comparison
with sector_concentration. -/
def sector_concentration_withProposal (signal : Signal) (portfolio : Portfolio) : ℚ :=
  let sector := get_sector signal.symbol
  let exposure := sector_exposure (portfolio.positions.getD []) sector
  let notional := (pyGet signal.quantity 0).getD 0 * (pyGet signal.entry_price 0).getD 0
  let total := portfolio.total_value.getD 0
  if total > 0 then (exposure + notional) / total else 0

/-- Iterate the drawdown check over a sequence of portfolio snapshots,
collecting the drawdown computed at each step and the final state. -/
def run_drawdown_checks (st : RiskManagerState) :
    List Portfolio → RiskManagerState × List ℚ
  | [] => (st, [])
  | p :: ps =>
    let d := drawdown_of st p
    let step := check_drawdown_limit st p
    let rest := run_drawdown_checks step.1 ps
    (rest.1, d :: rest.2)

/-! ## Helper lemmas -/

lemma severity_value_mem (s : SeverityLevel) :
    (["HIGH", "CRITICAL"].contains s.value = true) ↔ (s = .HIGH ∨ s = .CRITICAL) := by
  cases s <;> decide

lemma approved_eq_true_iff (rs : List RiskCheckResult) :
    approved rs = true ↔
      ∀ r ∈ rs, ¬(r.passed = false ∧ (r.severity = .HIGH ∨ r.severity = .CRITICAL)) := by
  simp only [approved, critical_risks, List.isEmpty_iff, List.filter_eq_nil_iff]
  constructor
  · intro h r hr hcontra
    have hb := h r hr
    rw [Bool.and_eq_true, Bool.not_eq_true'] at hb
    exact hb ⟨(severity_value_mem r.severity).mpr hcontra.2, hcontra.1⟩
  · intro h r hr hb
    rw [Bool.and_eq_true, Bool.not_eq_true'] at hb
    exact h r hr ⟨hb.2, (severity_value_mem r.severity).mp hb.1⟩

lemma approved_false_of_mem_high (rs : List RiskCheckResult) (r : RiskCheckResult)
    (hr : r ∈ rs) (hp : r.passed = false) (hs : r.severity = .HIGH) :
    approved rs = false := by
  cases hb : approved rs with
  | false => rfl
  | true =>
    exact absurd ⟨hp, Or.inl hs⟩ ((approved_eq_true_iff rs).mp hb r hr)

/-! ## Claims -/

/-- C2: the decision of process_message is approved exactly when no result
both failed and carries severity HIGH or CRITICAL; in particular, when every
failing result is LOW or MEDIUM the decision is approved. -/
theorem approved_iff_no_failed_high_or_critical (rs : List RiskCheckResult) :
    (approved rs = true ↔
      ∀ r ∈ rs, ¬(r.passed = false ∧ (r.severity = .HIGH ∨ r.severity = .CRITICAL)))
    ∧ ((∀ r ∈ rs, r.passed = false → r.severity = .LOW ∨ r.severity = .MEDIUM) →
      approved rs = true) := by
  refine ⟨approved_eq_true_iff rs, fun h => (approved_eq_true_iff rs).mpr ?_⟩
  intro r hr hcontra
  rcases h r hr hcontra.1 with h1 | h1 <;> rcases hcontra.2 with h2 | h2 <;>
    rw [h1] at h2 <;> exact SeverityLevel.noConfusion h2

/-- A concrete failing MEDIUM result, used to instantiate the decision rule. -/
def medium_failure_result : RiskCheckResult :=
  { passed := false
    risk_type := .CORRELATION_RISK
    message := "High sector concentration"
    severity := .MEDIUM
    action_required := true }

/-- Witness for C2 at a concrete result list: a single failing MEDIUM result
is approved. -/
theorem approved_iff_no_failed_high_or_critical_witness :
    approved [medium_failure_result] = true := by
  refine (approved_iff_no_failed_high_or_critical _).2 ?_
  intro r hr
  simp only [List.mem_singleton] at hr
  subst hr
  intro
  exact Or.inr rfl

/-- Counterexample for C3: an error raised inside the daily-loss check body
is converted by the check's own except handler into a failing result of
severity MEDIUM carrying the check's own risk type, not a HIGH
ORDER_FAILURE result as the claim states. -/
theorem check_error_becomes_medium_not_high :
    (run_check_with_handler .DAILY_LOSS_LIMIT "Daily loss check error: "
      (.error "database unavailable")).passed = false
    ∧ (run_check_with_handler .DAILY_LOSS_LIMIT "Daily loss check error: "
      (.error "database unavailable")).severity = .MEDIUM
    ∧ ¬((run_check_with_handler .DAILY_LOSS_LIMIT "Daily loss check error: "
      (.error "database unavailable")).severity = .HIGH)
    ∧ (run_check_with_handler .DAILY_LOSS_LIMIT "Daily loss check error: "
      (.error "database unavailable")).risk_type = .DAILY_LOSS_LIMIT := by
  refine ⟨rfl, rfl, ?_, rfl⟩
  intro h
  exact SeverityLevel.noConfusion h

/-- C3 amended: an error raised inside a check body is caught by the check's
own handler and becomes a failing MEDIUM result of that check's risk type;
an exception object that escapes a check entirely becomes, in the gather
loop of validate_trade, a failing HIGH ORDER_FAILURE result; in both cases
the error is a result rather than a propagated exception, and the collection
phase yields one result per check, so one failing check never shortens or
aborts the batch. -/
theorem check_errors_contained (rt : RiskEventType) (head e : String)
    (outcomes : List (Except String RiskCheckResult)) :
    (run_check_with_handler rt head (.error e)).passed = false
    ∧ (run_check_with_handler rt head (.error e)).severity = .MEDIUM
    ∧ (run_check_with_handler rt head (.error e)).risk_type = rt
    ∧ (gather_result (.error e)).passed = false
    ∧ (gather_result (.error e)).severity = .HIGH
    ∧ (gather_result (.error e)).risk_type = .ORDER_FAILURE
    ∧ (validate_collect outcomes).length = outcomes.length := by
  exact ⟨rfl, rfl, rfl, rfl, rfl, rfl, List.length_map _ _⟩

/-- A futures signal used to instantiate the margin rule. -/
def futures_signal : Signal :=
  { symbol := "RELIANCE"
    quantity := some (some 10)
    entry_price := some (some 100)
    instrument_type := some "FUTURES" }

/-- C9: with numeric quantity and entry price, the required margin is the
full notional for EQUITY and OPTIONS and 15 percent of notional for
FUTURES, and the margin check fails, with severity HIGH, exactly when the
computed required margin exceeds the available margin. -/
theorem margin_check_correct (signal : Signal) (portfolio : Portfolio)
    (qv pv : ℚ) (hq : pyGet signal.quantity 0 = some qv)
    (hp : pyGet signal.entry_price 0 = some pv) :
    (signal.instrument_type = some "EQUITY" →
      calculate_required_margin signal = .ok (qv * pv))
    ∧ (signal.instrument_type = some "OPTIONS" →
      calculate_required_margin signal = .ok (qv * pv))
    ∧ (signal.instrument_type = some "FUTURES" →
      calculate_required_margin signal = .ok (qv * pv * (15/100)))
    ∧ (∀ rm : ℚ, calculate_required_margin signal = .ok rm →
      (((check_margin_requirements signal portfolio).passed = false ↔
          rm > portfolio.available_margin.getD 0)
        ∧ ((check_margin_requirements signal portfolio).passed = false →
          (check_margin_requirements signal portfolio).severity = .HIGH))) := by
  refine ⟨fun h => ?_, fun h => ?_, fun h => ?_, fun rm hrm => ⟨?_, ?_⟩⟩
  · simp [calculate_required_margin, h, hq, hp, pyMul]
  · simp [calculate_required_margin, h, hq, hp, pyMul]
  · simp [calculate_required_margin, h, hq, hp, pyMul]
  · unfold check_margin_requirements
    rw [hrm]
    dsimp only
    split
    · rename_i hgt
      simpa [run_check_with_handler] using hgt
    · rename_i hgt
      simpa [run_check_with_handler] using hgt
  · unfold check_margin_requirements
    rw [hrm]
    dsimp only
    split
    · intro
      rfl
    · intro hF
      simp [run_check_with_handler] at hF

/-- Witness for C9 at the concrete futures signal: the required margin is 15
percent of the 1000 notional. -/
theorem margin_check_correct_witness :
    pyGet futures_signal.quantity 0 = some 10
    ∧ pyGet futures_signal.entry_price 0 = some 100
    ∧ calculate_required_margin futures_signal = .ok (10 * 100 * (15/100)) :=
  ⟨rfl, rfl, (margin_check_correct futures_signal { } 10 100 rfl rfl).2.2.1 rfl⟩

lemma check_position_size_eval (st : RiskManagerState) (signal : Signal)
    (qv px : ℚ) (hq : pyGet signal.quantity 0 = some qv)
    (he : pyGet signal.entry_price 0 = some px) :
    check_position_size st signal =
      if qv * px > st.max_position_size then
        { passed := false
          risk_type := .POSITION_SIZE_LIMIT
          message := "Position size exceeds limit"
          severity := .HIGH
          action_required := true }
      else
        { passed := true
          risk_type := .POSITION_SIZE_LIMIT
          message := "Position size within limits"
          severity := .LOW } := by
  unfold check_position_size
  rw [hq, he]
  dsimp only [pyMul]
  split <;> rfl

lemma check_position_size_passed_iff (st : RiskManagerState) (signal : Signal)
    (qv px : ℚ) (hq : pyGet signal.quantity 0 = some qv)
    (he : pyGet signal.entry_price 0 = some px) :
    (check_position_size st signal).passed = true ↔
      qv * px ≤ st.max_position_size := by
  rw [check_position_size_eval st signal qv px hq he]
  split
  · rename_i hgt
    simpa using not_le.mpr hgt
  · rename_i hgt
    simpa using not_lt.mp hgt

lemma check_position_size_fail_severity (st : RiskManagerState) (signal : Signal)
    (qv px : ℚ) (hq : pyGet signal.quantity 0 = some qv)
    (he : pyGet signal.entry_price 0 = some px) :
    (check_position_size st signal).passed = false →
      (check_position_size st signal).severity = .HIGH := by
  rw [check_position_size_eval st signal qv px hq he]
  split
  · intro
    rfl
  · intro hF
    exact Bool.noConfusion hF

lemma check_position_size_none_price (st : RiskManagerState) (signal : Signal)
    (h : signal.entry_price = some none) :
    (check_position_size st signal).passed = false
    ∧ (check_position_size st signal).severity = .MEDIUM
    ∧ (check_position_size st signal).risk_type = .POSITION_SIZE_LIMIT := by
  have he : pyGet signal.entry_price 0 = none := by simp [pyGet, h]
  unfold check_position_size
  rw [he]
  rcases hqx : pyGet signal.quantity 0 with _ | q <;> exact ⟨rfl, rfl, rfl⟩

lemma price_anomalies_always_passes (signal : Signal) :
    (check_price_anomalies signal).passed = true := by
  unfold check_price_anomalies
  split
  · rfl
  · split <;> rfl

/-- The scenario proposal of the spec: quantity 1000 at entry price 150,
notional 150000. -/
def oversized_signal : Signal :=
  { symbol := "X"
    quantity := some (some 1000)
    entry_price := some (some 150) }

lemma check_position_size_oversized :
    (check_position_size RiskManager.init oversized_signal).passed = false
    ∧ (check_position_size RiskManager.init oversized_signal).severity = .HIGH := by
  rw [check_position_size_eval RiskManager.init oversized_signal 1000 150 rfl rfl,
    if_pos (show (1000:ℚ) * 150 > RiskManager.init.max_position_size by
      norm_num [RiskManager.init])]
  exact ⟨rfl, rfl⟩

/-- C7: with a numeric quantity and entry price present, the position-size
check passes exactly when quantity times entry price is at most
max_position_size, a failure has severity HIGH, and the notional-150000
scenario proposal fails HIGH under the default limit 100000, which makes
any decision containing that result not approved. -/
theorem position_size_check_correct (st : RiskManagerState) (signal : Signal)
    (qv px : ℚ) (hq : pyGet signal.quantity 0 = some qv)
    (h : signal.entry_price = some (some px)) :
    ((check_position_size st signal).passed = true ↔
      qv * px ≤ st.max_position_size)
    ∧ ((check_position_size st signal).passed = false →
      (check_position_size st signal).severity = .HIGH)
    ∧ (check_position_size RiskManager.init oversized_signal).passed = false
    ∧ (check_position_size RiskManager.init oversized_signal).severity = .HIGH
    ∧ (∀ rs : List RiskCheckResult,
        check_position_size RiskManager.init oversized_signal ∈ rs →
          approved rs = false)
    ∧ RiskManager.init.max_position_size = 100000 := by
  have he : pyGet signal.entry_price 0 = some px := by simp [pyGet, h]
  refine ⟨check_position_size_passed_iff st signal qv px hq he,
    check_position_size_fail_severity st signal qv px hq he,
    check_position_size_oversized.1, check_position_size_oversized.2, ?_,
    by norm_num [RiskManager.init]⟩
  intro rs hmem
  exact approved_false_of_mem_high rs _ hmem
    check_position_size_oversized.1 check_position_size_oversized.2

/-- Witness for C7 at the scenario proposal itself. -/
theorem position_size_check_correct_witness :
    pyGet oversized_signal.quantity 0 = some 1000
    ∧ oversized_signal.entry_price = some (some 150)
    ∧ (((check_position_size RiskManager.init oversized_signal).passed = true ↔
        (1000:ℚ) * 150 ≤ RiskManager.init.max_position_size)
      ∧ ((check_position_size RiskManager.init oversized_signal).passed = false →
        (check_position_size RiskManager.init oversized_signal).severity = .HIGH)
      ∧ (check_position_size RiskManager.init oversized_signal).passed = false
      ∧ (check_position_size RiskManager.init oversized_signal).severity = .HIGH
      ∧ (∀ rs : List RiskCheckResult,
          check_position_size RiskManager.init oversized_signal ∈ rs →
            approved rs = false)
      ∧ RiskManager.init.max_position_size = 100000) :=
  ⟨rfl, rfl,
    position_size_check_correct RiskManager.init oversized_signal 1000 150 rfl rfl⟩

/-- A proposal whose entry_price key is missing entirely. -/
def priceless_signal : Signal :=
  { symbol := "Y"
    quantity := some (some 500) }

/-- A proposal whose entry_price key is present but bound to None: the
representation every signal producer of this repository emits for an
absent price. -/
def none_priced_signal : Signal :=
  { symbol := "Z"
    quantity := some (some 10)
    entry_price := some none }

/-- Counterexample for C8: at a proposal whose absent entry price is encoded
as the repository's signal producers emit it — the key present, bound to
None — the position-size check does not pass: the multiplication inside its
try block raises TypeError and the except handler returns a failing MEDIUM
result (the price-anomaly check still passes). -/
theorem none_priced_position_check_fails :
    none_priced_signal.entry_price = some none
    ∧ (check_position_size RiskManager.init none_priced_signal).passed = false
    ∧ (check_position_size RiskManager.init none_priced_signal).severity = .MEDIUM
    ∧ (check_price_anomalies none_priced_signal).passed = true := by
  have h := check_position_size_none_price RiskManager.init none_priced_signal rfl
  exact ⟨rfl, h.1, h.2.1, price_anomalies_always_passes none_priced_signal⟩

/-- C8 amended: the price-anomaly check passes vacuously for an absent entry
price in either representation (missing key, or key bound to None).  The
position-size check passes when the key is missing entirely — dict.get then
defaults the price to 0 — for any numeric quantity and nonnegative limit;
but when the key is present bound to None, which is how every signal
producer of this repository encodes an absent price, the multiplication
raises and the check returns a failing result of severity MEDIUM (advisory:
a MEDIUM failure does not block the decision). -/
theorem vacuous_pass_without_entry_price (st : RiskManagerState)
    (signal s2 : Signal) (qv : ℚ) (hq : pyGet signal.quantity 0 = some qv)
    (h : signal.entry_price = none) (hmax : 0 ≤ st.max_position_size)
    (h2 : s2.entry_price = some none) :
    (check_position_size st signal).passed = true
    ∧ (check_price_anomalies signal).passed = true
    ∧ (check_position_size st s2).passed = false
    ∧ (check_position_size st s2).severity = .MEDIUM
    ∧ (check_price_anomalies s2).passed = true := by
  have he : pyGet signal.entry_price 0 = some 0 := by simp [pyGet, h]
  have hnone := check_position_size_none_price st s2 h2
  refine ⟨?_, price_anomalies_always_passes signal, hnone.1, hnone.2.1,
    price_anomalies_always_passes s2⟩
  refine (check_position_size_passed_iff st signal qv 0 hq he).mpr ?_
  rw [mul_zero]
  exact hmax

/-- Witness for C8 at a concrete missing-key proposal and a concrete
None-valued proposal, both under the default state. -/
theorem vacuous_pass_without_entry_price_witness :
    pyGet priceless_signal.quantity 0 = some 500
    ∧ priceless_signal.entry_price = none
    ∧ 0 ≤ RiskManager.init.max_position_size
    ∧ none_priced_signal.entry_price = some none
    ∧ ((check_position_size RiskManager.init priceless_signal).passed = true
      ∧ (check_price_anomalies priceless_signal).passed = true
      ∧ (check_position_size RiskManager.init none_priced_signal).passed = false
      ∧ (check_position_size RiskManager.init none_priced_signal).severity = .MEDIUM
      ∧ (check_price_anomalies none_priced_signal).passed = true) :=
  ⟨rfl, rfl, by norm_num [RiskManager.init], rfl,
    vacuous_pass_without_entry_price RiskManager.init priceless_signal
      none_priced_signal 500 rfl rfl (by norm_num [RiskManager.init]) rfl⟩

/-- A losing trade created on day 4 and closed on day 5. -/
def stale_trade : Trade :=
  { created_day := 4
    exit_day := some 5
    net_pnl := some (-6000) }

/-- Counterexample for C10: on day 5, a 6000 loss on a trade closed on day 5
but created on day 4 is invisible to the check, because the query filters on
the day of created_at, not the closing day; the claim would require the
check to fail here, yet it passes. -/
theorem daily_loss_filters_on_created_day :
    (check_daily_loss_limit RiskManager.init [stale_trade] 5).2.passed = true
    ∧ daily_pnl_closed_today [stale_trade] 5 < 0
    ∧ |daily_pnl_closed_today [stale_trade] 5| > RiskManager.init.max_daily_loss := by
  refine ⟨?_, ?_, ?_⟩
  · have hq : daily_pnl_query [stale_trade] 5 = 0 := by
      simp [daily_pnl_query, stale_trade]
    unfold check_daily_loss_limit
    rw [hq]
    norm_num
  · have hc : daily_pnl_closed_today [stale_trade] 5 = -6000 := by
      simp [daily_pnl_closed_today, stale_trade]
    rw [hc]
    norm_num
  · have hc : daily_pnl_closed_today [stale_trade] 5 = -6000 := by
      simp [daily_pnl_closed_today, stale_trade]
    rw [hc]
    norm_num [RiskManager.init]

/-- C10 amended: the daily-loss check recomputes daily_pnl, not accumulated,
as the sum of non-null net_pnl over trades created on the current calendar
day, and fails with severity CRITICAL exactly when daily_pnl is negative and
its absolute value exceeds max_daily_loss (default 5000); a nonnegative
daily_pnl always passes. -/
theorem daily_loss_check_correct (st : RiskManagerState) (trades : List Trade)
    (today : ℤ) :
    ((check_daily_loss_limit st trades today).1 = daily_pnl_query trades today)
    ∧ (∀ q : ℚ, check_daily_loss_limit { st with daily_pnl := q } trades today
        = check_daily_loss_limit st trades today)
    ∧ ((check_daily_loss_limit st trades today).2.passed = false ↔
        (daily_pnl_query trades today < 0
          ∧ |daily_pnl_query trades today| > st.max_daily_loss))
    ∧ ((check_daily_loss_limit st trades today).2.passed = false →
        (check_daily_loss_limit st trades today).2.severity = .CRITICAL)
    ∧ (0 ≤ daily_pnl_query trades today →
        (check_daily_loss_limit st trades today).2.passed = true)
    ∧ RiskManager.init.max_daily_loss = 5000 := by
  refine ⟨?_, fun q => rfl, ?_, ?_, ?_, by norm_num [RiskManager.init]⟩
  · unfold check_daily_loss_limit
    dsimp only
    split <;> rfl
  · unfold check_daily_loss_limit
    dsimp only
    split
    · rename_i hc
      simpa using And.intro hc.2 hc.1
    · rename_i hc
      simp only [Bool.true_eq_false, false_iff]
      exact fun hcontra => hc ⟨hcontra.2, hcontra.1⟩
  · unfold check_daily_loss_limit
    dsimp only
    split
    · intro
      rfl
    · intro hF
      exact Bool.noConfusion hF
  · intro h0
    unfold check_daily_loss_limit
    dsimp only
    split
    · rename_i hc
      exact absurd hc.2 (not_lt.mpr h0)
    · rfl

/-- Witness for C10 at the empty ledger: pnl 0 is nonnegative and passes. -/
theorem daily_loss_check_correct_witness :
    0 ≤ daily_pnl_query [] 0
    ∧ (check_daily_loss_limit RiskManager.init [] 0).2.passed = true := by
  have h0 : (0:ℚ) ≤ daily_pnl_query [] 0 := by simp [daily_pnl_query]
  exact ⟨h0, (daily_loss_check_correct RiskManager.init [] 0).2.2.2.2.1 h0⟩

/-- A proposal for INFY (sector IT) with notional 500. -/
def it_signal : Signal :=
  { symbol := "INFY"
    quantity := some (some 10)
    entry_price := some (some 50) }

/-- A 1000-value portfolio already holding 200 of TCS (sector IT). -/
def it_heavy_portfolio : Portfolio :=
  { total_value := some 1000
    available_margin := some 10000
    positions := some [{ symbol := some "TCS", value := some 200 }] }

lemma sector_concentration_it_heavy :
    sector_concentration it_signal it_heavy_portfolio = 200/1000 := by
  have hb : (get_sector ((some "TCS").getD "") == get_sector "INFY") = true := by decide
  have hs : get_sector "TCS" = get_sector "INFY" := by decide
  simp only [sector_concentration, sector_exposure, it_signal, it_heavy_portfolio,
    Option.getD_some, List.filter_cons, List.filter_nil, hb, hs, if_true,
    List.foldl_cons, List.foldl_nil]
  norm_num

/-- Counterexample for C4: the proposed trade's notional is not added to the
sector exposure.  Buying 500 of INFY into a 1000-value portfolio holding 200
of IT stock passes the check, although existing exposure plus proposed
notional is 70 percent of total value, far above the 30 percent bound the
claim states as the fail condition. -/
theorem correlation_check_ignores_proposed_notional :
    (check_correlation_risk it_signal it_heavy_portfolio).passed = true
    ∧ sector_concentration_withProposal it_signal it_heavy_portfolio > 3/10 := by
  constructor
  · unfold check_correlation_risk
    rw [sector_concentration_it_heavy]
    norm_num
  · have hb : (get_sector ((some "TCS").getD "") == get_sector "INFY") = true := by decide
    have hs : get_sector "TCS" = get_sector "INFY" := by decide
    simp only [sector_concentration_withProposal, sector_exposure, pyGet, it_signal,
      it_heavy_portfolio, Option.getD_some, List.filter_cons, List.filter_nil, hb, hs,
      if_true, List.foldl_cons, List.foldl_nil]
    norm_num

/-- C4 amended: the correlation check fails, with severity MEDIUM, exactly
when the existing sector exposure alone, divided by total portfolio value,
strictly exceeds 0.30 — the proposed trade's notional is not included; a
concentration of exactly 30 percent passes, and the concentration is 0 when
total_value is 0. -/
theorem correlation_check_correct (signal : Signal) (portfolio : Portfolio) :
    ((check_correlation_risk signal portfolio).passed = false ↔
      sector_concentration signal portfolio > 3/10)
    ∧ ((check_correlation_risk signal portfolio).passed = false →
      (check_correlation_risk signal portfolio).severity = .MEDIUM)
    ∧ (portfolio.total_value = some 0 → sector_concentration signal portfolio = 0) := by
  refine ⟨?_, ?_, ?_⟩
  · unfold check_correlation_risk
    split
    · rename_i hgt
      simpa using hgt
    · rename_i hgt
      simpa using hgt
  · unfold check_correlation_risk
    split
    · intro
      rfl
    · intro hF
      exact Bool.noConfusion hF
  · intro h
    unfold sector_concentration
    rw [h, Option.getD_some]
    norm_num

/-- A 1000-value portfolio with exactly 300 of IT exposure: the 30 percent
boundary. -/
def it_boundary_portfolio : Portfolio :=
  { total_value := some 1000
    available_margin := some 10000
    positions := some [{ symbol := some "TCS", value := some 300 }] }

/-- Witness for C4: at exactly 30 percent concentration, the check passes. -/
theorem correlation_check_correct_witness :
    sector_concentration it_signal it_boundary_portfolio = 3/10
    ∧ (check_correlation_risk it_signal it_boundary_portfolio).passed = true := by
  have hc : sector_concentration it_signal it_boundary_portfolio = 3/10 := by
    have hb : (get_sector ((some "TCS").getD "") == get_sector "INFY") = true := by decide
    have hs : get_sector "TCS" = get_sector "INFY" := by decide
    simp only [sector_concentration, sector_exposure, it_signal, it_boundary_portfolio,
      Option.getD_some, List.filter_cons, List.filter_nil, hb, hs, if_true,
      List.foldl_cons, List.foldl_nil]
    norm_num
  refine ⟨hc, ?_⟩
  have hiff := (correlation_check_correct it_signal it_boundary_portfolio).1
  cases hp : (check_correlation_risk it_signal it_boundary_portfolio).passed with
  | false =>
    have := hiff.mp hp
    rw [hc] at this
    exact absurd this (lt_irrefl _)
  | true => rfl

/-- The drawdown formula exactly as the claim words it: peak updated to
max(portfolio_peak, total_value) first, then (peak - total_value) / peak,
taken as 0 when the peak is 0. -/
def claim_drawdown (st : RiskManagerState) (portfolio : Portfolio) : ℚ :=
  let v := portfolio.total_value.getD 0
  let peak := max st.portfolio_peak v
  if peak = 0 then 0 else (peak - v) / peak

lemma peak_after_eq_max (st : RiskManagerState) (p : Portfolio) :
    peak_after st p = max st.portfolio_peak (p.total_value.getD 0) := by
  unfold peak_after
  dsimp only
  split
  · rename_i hgt
    exact (max_eq_right hgt.le).symm
  · rename_i hgt
    exact (max_eq_left (not_lt.mp hgt)).symm

lemma check_drawdown_state_peak (st : RiskManagerState) (p : Portfolio) :
    (check_drawdown_limit st p).1.portfolio_peak = peak_after st p := by
  unfold check_drawdown_limit
  dsimp only
  split <;> split <;> rfl

lemma drawdown_of_eq_claim (st : RiskManagerState) (p : Portfolio)
    (h : 0 ≤ st.portfolio_peak) :
    drawdown_of st p = claim_drawdown st p := by
  unfold drawdown_of claim_drawdown
  dsimp only
  rw [peak_after_eq_max]
  by_cases hm : max st.portfolio_peak (p.total_value.getD 0) = 0
  · rw [if_neg (by rw [hm]; exact lt_irrefl 0), if_pos hm]
  · have hpos : 0 < max st.portfolio_peak (p.total_value.getD 0) :=
      lt_of_le_of_ne (le_trans h (le_max_left _ _)) (Ne.symm hm)
    rw [if_pos hpos, if_neg hm]

/-- C5: the drawdown check updates portfolio_peak to the max of the old peak
and total_value, computes drawdown as (peak - total_value) / peak with 0 at
peak 0, and fails, with severity CRITICAL, exactly when the drawdown exceeds
max_drawdown, whose default is 0.15. -/
theorem drawdown_check_correct (st : RiskManagerState) (portfolio : Portfolio)
    (h : 0 ≤ st.portfolio_peak) :
    ((check_drawdown_limit st portfolio).1.portfolio_peak
        = max st.portfolio_peak (portfolio.total_value.getD 0))
    ∧ drawdown_of st portfolio = claim_drawdown st portfolio
    ∧ ((check_drawdown_limit st portfolio).2.passed = false ↔
        claim_drawdown st portfolio > st.max_drawdown)
    ∧ ((check_drawdown_limit st portfolio).2.passed = false →
        (check_drawdown_limit st portfolio).2.severity = .CRITICAL)
    ∧ RiskManager.init.max_drawdown = 15/100 := by
  have hd := drawdown_of_eq_claim st portfolio h
  refine ⟨?_, hd, ?_, ?_, by norm_num [RiskManager.init]⟩
  · rw [check_drawdown_state_peak, peak_after_eq_max]
  · unfold check_drawdown_limit
    dsimp only
    rw [hd]
    split
    · rename_i hgt
      simpa using hgt
    · rename_i hgt
      simpa using hgt
  · unfold check_drawdown_limit
    dsimp only
    split
    · intro
      rfl
    · intro hF
      exact Bool.noConfusion hF

/-- A portfolio snapshot worth 100. -/
def portfolio100 : Portfolio := { total_value := some 100 }

/-- A portfolio snapshot worth 80. -/
def portfolio80 : Portfolio := { total_value := some 80 }

/-- Witness for C5 at the default state and a concrete 100-value snapshot. -/
theorem drawdown_check_correct_witness :
    0 ≤ RiskManager.init.portfolio_peak
    ∧ (((check_drawdown_limit RiskManager.init portfolio100).1.portfolio_peak
          = max RiskManager.init.portfolio_peak (portfolio100.total_value.getD 0))
      ∧ drawdown_of RiskManager.init portfolio100
          = claim_drawdown RiskManager.init portfolio100
      ∧ ((check_drawdown_limit RiskManager.init portfolio100).2.passed = false ↔
          claim_drawdown RiskManager.init portfolio100
            > RiskManager.init.max_drawdown)
      ∧ ((check_drawdown_limit RiskManager.init portfolio100).2.passed = false →
          (check_drawdown_limit RiskManager.init portfolio100).2.severity = .CRITICAL)
      ∧ RiskManager.init.max_drawdown = 15/100) :=
  ⟨by norm_num [RiskManager.init],
    drawdown_check_correct RiskManager.init portfolio100
      (by norm_num [RiskManager.init])⟩

lemma peak_after_ge_peak (st : RiskManagerState) (p : Portfolio) :
    st.portfolio_peak ≤ peak_after st p := by
  unfold peak_after
  dsimp only
  split
  · rename_i hgt
    exact hgt.le
  · exact le_rfl

lemma peak_after_ge_value (st : RiskManagerState) (p : Portfolio) :
    p.total_value.getD 0 ≤ peak_after st p := by
  unfold peak_after
  dsimp only
  split
  · exact le_rfl
  · rename_i hgt
    exact not_lt.mp hgt

lemma drawdown_of_bounds (st : RiskManagerState) (p : Portfolio)
    (hv : 0 ≤ p.total_value.getD 0) :
    0 ≤ drawdown_of st p ∧ drawdown_of st p ≤ 1 := by
  unfold drawdown_of
  dsimp only
  split
  · rename_i hpk
    have hvle := peak_after_ge_value st p
    constructor
    · exact div_nonneg (by linarith) hpk.le
    · rw [div_le_one hpk]
      linarith
  · exact ⟨le_rfl, zero_le_one⟩

lemma run_drawdown_peak_le (ps : List Portfolio) (st : RiskManagerState) :
    st.portfolio_peak ≤ (run_drawdown_checks st ps).1.portfolio_peak := by
  induction ps generalizing st with
  | nil => exact le_rfl
  | cons p rest ih =>
    show st.portfolio_peak ≤
      (run_drawdown_checks (check_drawdown_limit st p).1 rest).1.portfolio_peak
    refine le_trans ?_ (ih (check_drawdown_limit st p).1)
    rw [check_drawdown_state_peak]
    exact peak_after_ge_peak st p

lemma run_drawdown_bounds (ps : List Portfolio) (st : RiskManagerState)
    (h : ∀ p ∈ ps, 0 ≤ p.total_value.getD 0) :
    ∀ d ∈ (run_drawdown_checks st ps).2, 0 ≤ d ∧ d ≤ 1 := by
  induction ps generalizing st with
  | nil =>
    intro d hd
    exact absurd hd (List.not_mem_nil d)
  | cons p rest ih =>
    intro d hd
    rcases List.mem_cons.mp hd with hhead | htail
    · subst hhead
      exact drawdown_of_bounds st p (h p (List.mem_cons_self p rest))
    · exact ih (check_drawdown_limit st p).1
        (fun q hq => h q (List.mem_cons_of_mem p hq)) d htail

/-- C6: across any run of drawdown checks the portfolio peak never
decreases — both step by step and over a whole run — and every drawdown
computed along a run over snapshots with nonnegative total_value lies in
the interval from 0 to 1. -/
theorem drawdown_run_invariants (st : RiskManagerState) (ps : List Portfolio)
    (h : ∀ p ∈ ps, 0 ≤ p.total_value.getD 0) :
    st.portfolio_peak ≤ (run_drawdown_checks st ps).1.portfolio_peak
    ∧ (∀ (st2 : RiskManagerState) (p : Portfolio),
        st2.portfolio_peak ≤ (check_drawdown_limit st2 p).1.portfolio_peak)
    ∧ (∀ d ∈ (run_drawdown_checks st ps).2, 0 ≤ d ∧ d ≤ 1) := by
  refine ⟨run_drawdown_peak_le ps st, ?_, run_drawdown_bounds ps st h⟩
  intro st2 p
  rw [check_drawdown_state_peak]
  exact peak_after_ge_peak st2 p

/-- Witness for C6 on a concrete run: value 100 then a drop to 80. -/
theorem drawdown_run_invariants_witness :
    (∀ p ∈ [portfolio100, portfolio80], 0 ≤ p.total_value.getD 0)
    ∧ (RiskManager.init.portfolio_peak ≤
        (run_drawdown_checks RiskManager.init [portfolio100, portfolio80]).1.portfolio_peak
      ∧ (∀ (st2 : RiskManagerState) (p : Portfolio),
          st2.portfolio_peak ≤ (check_drawdown_limit st2 p).1.portfolio_peak)
      ∧ (∀ d ∈ (run_drawdown_checks RiskManager.init [portfolio100, portfolio80]).2,
          0 ≤ d ∧ d ≤ 1)) := by
  have hv : ∀ p ∈ [portfolio100, portfolio80], 0 ≤ p.total_value.getD 0 := by
    intro p hp
    rcases List.mem_cons.mp hp with rfl | hp2
    · norm_num [portfolio100]
    · rcases List.mem_cons.mp hp2 with rfl | hp3
      · norm_num [portfolio80]
      · exact absurd hp3 (List.not_mem_nil p)
  exact ⟨hv, drawdown_run_invariants RiskManager.init [portfolio100, portfolio80] hv⟩

/-- C1 divergence witness: validate_trade never consults the emergency-stop
flag, and no call ever returns a decision at all: the checks list hands
asyncio.gather three already-awaited RiskCheckResult dataclass values, so
every call — before or after emergencyStop — raises TypeError instead of
producing the single-CRITICAL EMERGENCY_STOP record the claim describes. -/
theorem validate_ignores_emergency_stop :
    ∀ (st : RiskManagerState) (signal : Signal) (portfolio : Portfolio) (env : Env),
      validate_trade (RiskManager.emergency_stop st) signal portfolio env
        = Except.error
            "TypeError: An asyncio.Future, a coroutine or an awaitable is required"
      ∧ validate_trade (RiskManager.emergency_stop st) signal portfolio env
        = validate_trade st signal portfolio env
      ∧ RiskManager.is_emergency_stop_active (RiskManager.emergency_stop st) = true := by
  intro st signal portfolio env
  refine ⟨?_, ?_, rfl⟩
  · rfl
  · rfl
